import Mathlib

/-!
Shallow embedding of the "Tenant - Real Estate Management API" backend
(`main.py`, `schemas.py`).

Conventions of the embedding:
* JSON-ish document values are the inductive `Val`; a stored record is an
  association list `StoredDoc` (Python dicts preserve insertion order).
* The document store (`database.py` is not among the repository's source
  files; only `main.py`'s imports of `db`, `create_document`, `get_documents`
  reference it) is modelled from the spec as a map from collection name to the
  ordered list of its stored records.
* HTTP failure (`HTTPException(status_code, detail)`) is the `.error` side of
  `Except (Nat × String) _`; the `.ok` side carries the response payload and,
  for writes, the updated store.
* Raw upload bytes are `List Nat` (each < 256 in practice; the decoder treats
  any number ≥ 0x80 outside the UTF-8 ranges as invalid, as Python does a
  stray byte).
-/

/-- A JSON-ish value stored in a document; `oid` is a store-assigned
ObjectId carrying its hexadecimal string rendering. -/
inductive Val where
  | null : Val
  | bool : Bool → Val
  | int : Int → Val
  | str : String → Val
  | oid : String → Val
  | arr : List Val → Val
  | obj : List (String × Val) → Val

/-- Python `repr` of a value, as used when a container is rendered
(string-escaping inside `repr` of a string is not modelled). -/
def pyRepr : Val → String
  | .null => "None"
  | .bool true => "True"
  | .bool false => "False"
  | .int n => toString n
  | .str s => "'" ++ s ++ "'"
  | .oid s => "ObjectId('" ++ s ++ "')"
  | .arr l => "[" ++ String.intercalate ", " (l.attach.map (fun x => pyRepr x.1)) ++ "]"
  | .obj l =>
      "\x7b" ++ String.intercalate ", "
        (l.attach.map (fun x => "'" ++ x.1.1 ++ "': " ++ pyRepr x.1.2)) ++ "\x7d"
decreasing_by
  · have h1 := List.sizeOf_lt_of_mem x.2
    simp at h1 ⊢
    omega
  · have h1 := List.sizeOf_lt_of_mem x.2
    rcases x with ⟨⟨a, b⟩, hx⟩
    simp at h1 ⊢
    omega

/-- Python `str()` of a value: strings and ObjectIds render as their plain
text, scalars as Python prints them, containers through `repr`. -/
def pyStr : Val → String
  | .str s => s
  | .oid s => s
  | .null => "None"
  | .bool true => "True"
  | .bool false => "False"
  | .int n => toString n
  | .arr l => pyRepr (.arr l)
  | .obj l => pyRepr (.obj l)

/-- A continuation byte of a UTF-8 sequence. -/
def isCont (b : Nat) : Bool := 0x80 ≤ b && b ≤ 0xBF

/-- Incremental UTF-8 decoding as CPython's codec does it: each maximal
invalid subpart contributes `err` to the output (`[]` for the `ignore`
handler, `[0xFFFD]` for `replace`) and decoding resumes at the first byte
after it. `fuel` only bounds recursion and is instantiated with the input
length. -/
def utf8DecodeAux (err : List Nat) : Nat → List Nat → List Nat
  | 0, _ => []
  | _, [] => []
  | fuel + 1, b :: rest =>
    if b < 0x80 then b :: utf8DecodeAux err fuel rest
    else if b < 0xC2 then err ++ utf8DecodeAux err fuel rest
    else if b ≤ 0xDF then
      match rest with
      | [] => err
      | b2 :: rest2 =>
        if isCont b2 then ((b - 0xC0) * 64 + (b2 - 0x80)) :: utf8DecodeAux err fuel rest2
        else err ++ utf8DecodeAux err fuel rest
    else if b ≤ 0xEF then
      -- 3-byte sequence; the first continuation window depends on the lead
      -- byte (ruling out overlong encodings and surrogates)
      let lo2 : Nat := if b = 0xE0 then 0xA0 else 0x80
      let hi2 : Nat := if b = 0xED then 0x9F else 0xBF
      match rest with
      | [] => err
      | b2 :: rest2 =>
        if lo2 ≤ b2 && b2 ≤ hi2 then
          match rest2 with
          | [] => err
          | b3 :: rest3 =>
            if isCont b3 then
              ((b - 0xE0) * 4096 + (b2 - 0x80) * 64 + (b3 - 0x80)) ::
                utf8DecodeAux err fuel rest3
            else err ++ utf8DecodeAux err fuel rest2
        else err ++ utf8DecodeAux err fuel rest
    else if b ≤ 0xF4 then
      let lo2 : Nat := if b = 0xF0 then 0x90 else 0x80
      let hi2 : Nat := if b = 0xF4 then 0x8F else 0xBF
      match rest with
      | [] => err
      | b2 :: rest2 =>
        if lo2 ≤ b2 && b2 ≤ hi2 then
          match rest2 with
          | [] => err
          | b3 :: rest3 =>
            if isCont b3 then
              match rest3 with
              | [] => err
              | b4 :: rest4 =>
                if isCont b4 then
                  ((b - 0xF0) * 262144 + (b2 - 0x80) * 4096 + (b3 - 0x80) * 64 + (b4 - 0x80)) ::
                    utf8DecodeAux err fuel rest4
                else err ++ utf8DecodeAux err fuel rest3
            else err ++ utf8DecodeAux err fuel rest2
        else err ++ utf8DecodeAux err fuel rest
    else err ++ utf8DecodeAux err fuel rest

/-- Decode bytes to a string, with `err` emitted for each invalid subpart. -/
def pyDecode (err : List Nat) (raw : List Nat) : String :=
  String.mk ((utf8DecodeAux err raw.length raw).map Char.ofNat)

/-- `raw.decode(errors="ignore")` from `main.py` line 124: the lossy decode
that drops invalid byte sequences; it never raises. -/
def pyDecodeIgnore (raw : List Nat) : String := pyDecode [] raw

/-- A second definition following the spec's words ("decode the raw bytes as
text, replacing undecodable bytes rather than failing"): Python's `replace`
handler, emitting U+FFFD for each invalid subpart; compared against the
source's `pyDecodeIgnore`. -/
def specDecodeReplace (raw : List Nat) : String := pyDecode [0xFFFD] raw

/-- Python `str.lower()` on one character (ASCII case mapping; filenames'
non-ASCII case folding is not modelled). -/
def pyLowerChar (c : Char) : Char :=
  if 65 ≤ c.toNat ∧ c.toNat ≤ 90 then Char.ofNat (c.toNat + 32) else c

/-- Python `s.lower()`. -/
def pyLower (s : String) : String := String.mk (s.data.map pyLowerChar)

/-- Python `s.endswith(suffix)`. -/
def pyEndsWith (s suffix : String) : Bool := suffix.data.isSuffixOf s.data

/-- Python `s.split(",")`: the pieces between commas, in order; empty pieces
are kept, and a string with no comma is one piece. -/
def pySplitCommaAux : List Char → List Char → List String
  | [], acc => [String.mk acc.reverse]
  | c :: rest, acc =>
    if c = ',' then String.mk acc.reverse :: pySplitCommaAux rest []
    else pySplitCommaAux rest (c :: acc)

/-- Python `s.split(",")`. -/
def pySplitComma (s : String) : List String := pySplitCommaAux s.data []

/-- The whitespace Python's `str.strip()` removes (restricted to the ASCII
whitespace characters; exotic Unicode spaces are not modelled). -/
def pyIsSpace (c : Char) : Bool :=
  c = ' ' || c = '\t' || c = '\n' || c = '\r' || c = '\x0b' || c = '\x0c'

/-- Python `s.strip()`: drop leading and trailing whitespace. -/
def pyStrip (s : String) : String :=
  String.mk (((s.data.dropWhile pyIsSpace).reverse.dropWhile pyIsSpace).reverse)

/-- Python's `x or default` on an optional string: `None` and `""` are falsy
and give the default. -/
def pyOrStr (o : Option String) (default : String) : String :=
  match o with
  | none => default
  | some s => if s = "" then default else s

/-- `main.py` line 140: `[t.strip() for t in (tags.split(",") if tags else [])
if t.strip()]`. An absent or empty tags string contributes no pieces;
otherwise the string is split on commas, each piece stripped, and pieces that
strip to nothing are dropped. -/
def parse_tags (tags : Option String) : List String :=
  ((match tags with
    | none => []
    | some t => if t = "" then [] else pySplitComma t).filter
      (fun t => pyStrip t != "")).map pyStrip

/-- `main.py` lines 119-134: the extracted-text computation, step for step.
`extracted_text` starts as `None`; the CSV/TSV branch assigns the lossy
decode (inside a `try` whose body cannot raise); the Excel and PDF branches
each fire only when `extracted_text` is still `None`. -/
def extracted_text_of (filename : String) (raw : List Nat) : Option String :=
  let lower := pyLower filename
  let e1 : Option String :=
    if pyEndsWith lower ".csv" || pyEndsWith lower ".tsv" then some (pyDecodeIgnore raw)
    else none
  let e2 : Option String :=
    if e1.isNone && (pyEndsWith lower ".xlsx" || pyEndsWith lower ".xls") then
      some "Excel file uploaded (preview disabled)."
    else e1
  let e3 : Option String :=
    if e2.isNone && pyEndsWith lower ".pdf" then
      some "PDF uploaded (text extraction not available in lightweight mode)."
    else e2
  e3

/-- A stored record: field names to values, in insertion order. -/
abbrev StoredDoc := List (String × Val)

/-- The document store: each collection name holds its ordered records.
Modelled from the spec: `database.py` is not among the source files. -/
abbrev Store := String → List StoredDoc

/-- Modelled from the spec: the Document Store Adapter's "find many with
limit" per named collection (`get_documents` of the absent `database.py`). -/
def get_documents (s : Store) (collection : String) (limit : Nat) : List StoredDoc :=
  (s collection).take limit

/-- Modelled from the spec: the Document Store Adapter's "insert one"
(`create_document` of the absent `database.py`). "Every stored record
receives an opaque unique identifier assigned by the store at creation
time": `fresh` stands for that store-generated ObjectId; the payload is
persisted verbatim alongside it, and the new identifier is returned. -/
def create_document (s : Store) (collection : String) (payload : StoredDoc)
    (fresh : String) : String × Store :=
  (fresh, fun c =>
    if c = collection then s collection ++ [("_id", Val.oid fresh) :: payload]
    else s c)

/-- `main.py` line 75. -/
def VALID_COLLECTIONS : List String :=
  ["tenant", "owner", "property", "lease", "sale", "expense", "document"]

/-- `main.py` lines 84-91: the per-record output normalization of
`list_items` (source name `normalize`; renamed here since Mathlib takes that name) — the `_id` field is rendered through `str(...)`, every other
entry is copied as is. -/
def normalizeDoc : StoredDoc → StoredDoc
  | [] => []
  | (k, v) :: rest =>
    (if k = "_id" then (k, Val.str (pyStr v)) else (k, v)) :: normalizeDoc rest

/-- `main.py` lines 72-73. -/
structure ListResponse where
  items : List StoredDoc

/-- `main.py` lines 77-92: GET `/api/{collection}`. -/
def list_items (db : Option Store) (collection : String) (limit : Nat) :
    Except (Nat × String) ListResponse :=
  match db with
  | none => .error (500, "Database not configured")
  | some s =>
    if collection ∉ VALID_COLLECTIONS then .error (404, "Collection not found")
    else .ok ⟨(get_documents s collection limit).map normalizeDoc⟩

/-- The `{"id": ..., "message": "Created"}` payload of `create_item`. -/
structure CreateResponse where
  id : String
  message : String

/-- `main.py` lines 94-101: POST `/api/{collection}`; on success the updated
store is returned alongside the response payload. -/
def create_item (db : Option Store) (collection : String) (payload : StoredDoc)
    (fresh : String) : Except (Nat × String) (CreateResponse × Store) :=
  match db with
  | none => .error (500, "Database not configured")
  | some s =>
    if collection ∉ VALID_COLLECTIONS then .error (404, "Collection not found")
    else
      let r := create_document s collection payload fresh
      .ok (⟨r.1, "Created"⟩, r.2)

/-- An optional string as a stored value (`None` becomes JSON null). -/
def optStrVal : Option String → Val
  | none => .null
  | some s => .str s

/-- `main.py` lines 136-144: the Document record the upload handler builds
(dict literal, in source order). -/
def upload_doc (filename content_type : String)
    (title tags related_type related_id : Option String)
    (extracted_text : Option String) : StoredDoc :=
  [("title", Val.str (pyOrStr title filename)),
   ("filename", Val.str filename),
   ("content_type", Val.str content_type),
   ("tags", Val.arr ((parse_tags tags).map Val.str)),
   ("related_type", optStrVal related_type),
   ("related_id", optStrVal related_id),
   ("extracted_text", optStrVal extracted_text)]

/-- The `{"id": ..., "message": "Uploaded", "preview": ...}` payload of the
upload handler. -/
structure UploadResponse where
  id : String
  message : String
  preview : Option String

/-- `main.py` lines 104-147: POST `/api/upload`. `filename0`/`content_type0`
are the multipart file's metadata (each possibly absent or empty), `raw` its
bytes, `fresh` the store-generated identifier. The preview is
`extracted_text[:1000] if extracted_text else None`: Python truthiness makes
both `None` and `""` yield a null preview. -/
def upload_document (db : Option Store) (filename0 content_type0 : Option String)
    (raw : List Nat) (title tags related_type related_id : Option String)
    (fresh : String) : Except (Nat × String) (UploadResponse × Store) :=
  match db with
  | none => .error (500, "Database not configured")
  | some s =>
    let filename := pyOrStr filename0 "uploaded"
    let content_type := pyOrStr content_type0 "application/octet-stream"
    let extracted_text := extracted_text_of filename raw
    let doc := upload_doc filename content_type title tags related_type related_id
      extracted_text
    let r := create_document s "document" doc fresh
    let preview : Option String :=
      match extracted_text with
      | none => none
      | some t => if t = "" then none else some (t.take 1000)
    .ok (⟨r.1, "Uploaded", preview⟩, r.2)

/-- A field's type in a structural schema, as `schemas.py` declares it. -/
inductive FType where
  | str : FType
  | email : FType
  | float : FType
  | int : FType
  | bool : FType
  | date : FType
  | listStr : FType
  | enum : List String → FType
deriving DecidableEq

/-- One field of a structural schema: its name, type, whether it is required
(no default in the Pydantic model), and whether it carries a `ge=0` bound. -/
structure FieldSpec where
  name : String
  type : FType
  required : Bool
  nonneg : Bool
deriving DecidableEq

namespace schemas

/-- `schemas.py` lines 11-17. -/
def Tenant : List FieldSpec :=
  [⟨"first_name", .str, true, false⟩,
   ⟨"last_name", .str, true, false⟩,
   ⟨"email", .email, false, false⟩,
   ⟨"phone", .str, false, false⟩,
   ⟨"current_property_id", .str, false, false⟩,
   ⟨"notes", .str, false, false⟩]

/-- `schemas.py` lines 19-24. -/
def Owner : List FieldSpec :=
  [⟨"first_name", .str, true, false⟩,
   ⟨"last_name", .str, true, false⟩,
   ⟨"email", .email, false, false⟩,
   ⟨"phone", .str, false, false⟩,
   ⟨"company", .str, false, false⟩]

/-- `schemas.py` lines 26-37. -/
def Property : List FieldSpec :=
  [⟨"title", .str, true, false⟩,
   ⟨"address", .str, true, false⟩,
   ⟨"city", .str, false, false⟩,
   ⟨"state", .str, false, false⟩,
   ⟨"postal_code", .str, false, false⟩,
   ⟨"country", .str, false, false⟩,
   ⟨"owner_id", .str, false, false⟩,
   ⟨"type", .enum ["apartment", "house", "condo", "land", "office", "retail",
      "industrial", "other"], false, false⟩,
   ⟨"bedrooms", .int, false, true⟩,
   ⟨"bathrooms", .float, false, true⟩,
   ⟨"area_sqft", .float, false, true⟩]

/-- `schemas.py` lines 39-46. -/
def Lease : List FieldSpec :=
  [⟨"tenant_id", .str, true, false⟩,
   ⟨"property_id", .str, true, false⟩,
   ⟨"start_date", .date, true, false⟩,
   ⟨"end_date", .date, false, false⟩,
   ⟨"monthly_rent", .float, true, true⟩,
   ⟨"deposit", .float, false, true⟩,
   ⟨"status", .enum ["active", "pending", "ended"], false, false⟩]

/-- `schemas.py` lines 48-54. -/
def Sale : List FieldSpec :=
  [⟨"property_id", .str, true, false⟩,
   ⟨"buyer_name", .str, true, false⟩,
   ⟨"seller_owner_id", .str, false, false⟩,
   ⟨"price", .float, true, true⟩,
   ⟨"date_closed", .date, false, false⟩,
   ⟨"status", .enum ["listed", "under_contract", "sold", "cancelled"], false, false⟩]

/-- `schemas.py` lines 56-62. -/
def Expense : List FieldSpec :=
  [⟨"property_id", .str, false, false⟩,
   ⟨"category", .enum ["maintenance", "tax", "utilities", "insurance",
      "management", "other"], false, false⟩,
   ⟨"amount", .float, true, true⟩,
   ⟨"description", .str, false, false⟩,
   ⟨"expense_date", .date, true, false⟩,
   ⟨"paid", .bool, false, false⟩]

/-- `schemas.py` lines 64-73. -/
def Document : List FieldSpec :=
  [⟨"title", .str, true, false⟩,
   ⟨"file_id", .str, false, false⟩,
   ⟨"filename", .str, false, false⟩,
   ⟨"content_type", .str, false, false⟩,
   ⟨"tags", .listStr, false, false⟩,
   ⟨"related_type", .enum ["tenant", "owner", "property", "lease", "sale",
      "expense", "general"], false, false⟩,
   ⟨"related_id", .str, false, false⟩,
   ⟨"extracted_text", .str, false, false⟩,
   ⟨"extracted_summary", .str, false, false⟩]

end schemas

/-- The attribute table of the `schemas` module: each Pydantic model class it
defines, by name. -/
def schemas_registry : List (String × List FieldSpec) :=
  [("Tenant", schemas.Tenant), ("Owner", schemas.Owner),
   ("Property", schemas.Property), ("Lease", schemas.Lease),
   ("Sale", schemas.Sale), ("Expense", schemas.Expense),
   ("Document", schemas.Document)]

/-- `main.py` lines 61-63. -/
def model_names : List String :=
  ["Tenant", "Owner", "Property", "Lease", "Sale", "Expense", "Document"]

/-- `main.py` lines 53-69: GET `/schema`. For each name of `model_names`, the
module attribute of that name is looked up and, when it is a model, emitted
under the lowercased name (a missing attribute is skipped, not an error). -/
def get_schema : List (String × List FieldSpec) :=
  model_names.filterMap (fun name =>
    (schemas_registry.lookup name).map (fun m => (pyLower name, m)))

/-- The store handle as the diagnostics endpoint sees it:
`list_collection_names()` either returns the store's collection names or
raises (the `.error` side carries `str(e)`). -/
structure DBHandle where
  list_collection_names : Except String (List String)

/-- The `/test` status payload (`main.py` lines 28-35). -/
structure TestResponse where
  backend : String
  database : String
  database_url : Option String
  database_name : Option String
  connection_status : String
  collections : List String
deriving DecidableEq

/-- `main.py` lines 26-50: GET `/test`. Total over every store state: every
failure of the introspection is caught and rendered inside the payload.
`database_url_set` / `database_name_set` say whether the two environment
variables are set (`os.getenv(...)` truthiness). `connection_status` is
initialized to "Not Connected" and never reassigned in the source. -/
def test_database (db : Option DBHandle)
    (database_url_set database_name_set : Bool) : TestResponse :=
  match db with
  | none =>
    ⟨"✅ Running", "⚠️ Available but not initialized", none, none, "Not Connected", []⟩
  | some d =>
    let url := some (if database_url_set then "✅ Set" else "❌ Not Set")
    let nm := some (if database_name_set then "✅ Set" else "❌ Not Set")
    match d.list_collection_names with
    | .ok collections =>
      ⟨"✅ Running", "✅ Connected & Working", url, nm, "Not Connected",
        collections.take 20⟩
    | .error e =>
      ⟨"✅ Running", "⚠️ Connected but Error: " ++ e.take 80, url, nm,
        "Not Connected", []⟩

/-- C1 fails as stated: when the store is not configured (`db is None`), the
handlers raise 500 "Database not configured" before the allow-list check, so
an unknown collection does NOT get a 404 in that state. -/
theorem C1_counterexample :
    list_items none "bogus" 25 = .error (500, "Database not configured") ∧
    list_items none "bogus" 25 ≠ .error (404, "Collection not found") ∧
    create_item none "bogus" [] "id1" = .error (500, "Database not configured") ∧
    create_item none "bogus" [] "id1" ≠ .error (404, "Collection not found") := by
  refine ⟨rfl, ?_, rfl, ?_⟩ <;> simp [list_items, create_item]

/-- C1 (amended): when the store is configured, every collection name outside
the allow-list makes both List and Create fail 404 before touching the store
(the result is the same constant for every store contents); when the store is
not configured, both fail 500 — the store-configured check precedes the
allow-list check. -/
theorem C1_unknown_collection_404 (s : Store) (c : String) (limit : Nat)
    (payload : StoredDoc) (fresh : String) (h : c ∉ VALID_COLLECTIONS) :
    list_items (some s) c limit = .error (404, "Collection not found") ∧
    create_item (some s) c payload fresh = .error (404, "Collection not found") ∧
    list_items none c limit = .error (500, "Database not configured") ∧
    create_item none c payload fresh = .error (500, "Database not configured") := by
  refine ⟨?_, ?_, rfl, rfl⟩ <;> simp [list_items, create_item, h]

/-- C1 witness: the amended statement at the concrete collection "bogus". -/
theorem C1_witness :
    list_items (some (fun _ => [])) "bogus" 25 = .error (404, "Collection not found") ∧
    create_item (some (fun _ => [])) "bogus" [] "id1" = .error (404, "Collection not found") ∧
    list_items none "bogus" 25 = .error (500, "Database not configured") ∧
    create_item none "bogus" [] "id1" = .error (500, "Database not configured") :=
  C1_unknown_collection_404 (fun _ => []) "bogus" 25 [] "id1" (by decide)

/-- C2: for every allow-listed collection and arbitrary payload, Create
performs no validation: it succeeds, returns the store-assigned identifier
with the "Created" acknowledgment, and appends the payload verbatim (with its
store-assigned `_id`) to the named collection, leaving every other collection
untouched. -/
theorem C2_create_no_validation (s : Store) (c : String) (payload : StoredDoc)
    (fresh : String) (h : c ∈ VALID_COLLECTIONS) :
    ∃ s', create_item (some s) c payload fresh = .ok (⟨fresh, "Created"⟩, s') ∧
      s' c = s c ++ [("_id", Val.oid fresh) :: payload] ∧
      ∀ c', c' ≠ c → s' c' = s c' := by
  refine ⟨(create_document s c payload fresh).2, ?_, ?_, ?_⟩
  · simp [create_item, create_document, h]
  · simp [create_document]
  · intro c' hc'
    simp [create_document, hc']

/-- C2 witness: a "tenant" payload whose only field is absent from the Tenant
schema is accepted and stored verbatim. -/
theorem C2_witness :
    ∃ s', create_item (some (fun _ => [])) "tenant" [("bogus_field", Val.int 7)] "oid1"
        = .ok (⟨"oid1", "Created"⟩, s') ∧
      s' "tenant" = (fun _ => ([] : List StoredDoc)) "tenant"
        ++ [("_id", Val.oid "oid1") :: [("bogus_field", Val.int 7)]] ∧
      ∀ c', c' ≠ "tenant" → s' c' = (fun _ => ([] : List StoredDoc)) c' :=
  C2_create_no_validation (fun _ => []) "tenant" [("bogus_field", Val.int 7)] "oid1"
    (by decide)

/-- C3: normalization preserves the key sequence (nothing added, removed or
reordered) and rewrites exactly the `_id` entries, rendering their value
through `str(...)`; every other entry is unchanged. -/
theorem C3_normalize_frame (d : StoredDoc) :
    (normalizeDoc d).map Prod.fst = d.map Prod.fst ∧
    ∀ i : Nat, (normalizeDoc d)[i]? = (d[i]?).map
      (fun kv => if kv.1 = "_id" then (kv.1, Val.str (pyStr kv.2)) else kv) := by
  induction d with
  | nil => exact ⟨rfl, fun i => by simp [normalizeDoc]⟩
  | cons kv rest ih =>
    obtain ⟨k, v⟩ := kv
    constructor
    · by_cases hk : k = "_id" <;> simp [normalizeDoc, hk, ih.1]
    · intro i
      cases i with
      | zero => by_cases hk : k = "_id" <;> simp [normalizeDoc, hk]
      | succ n => simpa [normalizeDoc] using ih.2 n

/-- C4: the extracted text is the first match of the ordered case-insensitive
extension cascade: csv/tsv → decoded bytes; xlsx/xls → the fixed Excel
placeholder; pdf → the fixed PDF placeholder; otherwise absent — and the
spec's three concrete instances. -/
theorem C4_extraction_cascade (filename : String) (raw : List Nat) :
    (extracted_text_of filename raw =
      if pyEndsWith (pyLower filename) ".csv" || pyEndsWith (pyLower filename) ".tsv" then
        some (pyDecodeIgnore raw)
      else if pyEndsWith (pyLower filename) ".xlsx" || pyEndsWith (pyLower filename) ".xls" then
        some "Excel file uploaded (preview disabled)."
      else if pyEndsWith (pyLower filename) ".pdf" then
        some "PDF uploaded (text extraction not available in lightweight mode)."
      else none) ∧
    extracted_text_of "sheet.xlsx" [] = some "Excel file uploaded (preview disabled)." ∧
    extracted_text_of "notes.pdf" []
      = some "PDF uploaded (text extraction not available in lightweight mode)." ∧
    extracted_text_of "photo.png" [] = none := by
  refine ⟨?_, by decide, by decide, by decide⟩
  by_cases h1 : (pyEndsWith (pyLower filename) ".csv" || pyEndsWith (pyLower filename) ".tsv") = true
  · simp [extracted_text_of, h1]
  · by_cases h2 : (pyEndsWith (pyLower filename) ".xlsx" || pyEndsWith (pyLower filename) ".xls") = true
    · simp [extracted_text_of, h1, h2]
    · by_cases h3 : pyEndsWith (pyLower filename) ".pdf" = true
      · simp [extracted_text_of, h1, h2, h3]
      · simp [extracted_text_of, h1, h2, h3]

/-- C5 fails as stated: the source decodes with `errors="ignore"`, which
DROPS undecodable bytes; replacing them (the spec's words, Python's
`errors="replace"`) would emit U+FFFD. On the single invalid byte 0xFF the
two disagree: the code yields "", replacement would yield "�". -/
theorem C5_counterexample :
    extracted_text_of "x.csv" [255] = some "" ∧
    specDecodeReplace [255] = "�" ∧
    extracted_text_of "x.csv" [255] ≠ some (specDecodeReplace [255]) := by
  refine ⟨by decide, by decide, by decide⟩

/-- C5 (amended): for every .csv/.tsv filename (case-insensitive) and every
byte sequence, the extracted text is the total lossy decode that DROPS
undecodable bytes rather than failing (it never raises); on the concrete
instance `report.csv` with bytes "a,b\nc,d" it is exactly "a,b\nc,d". -/
theorem C5_lossy_decode (filename : String) (raw : List Nat)
    (h : pyEndsWith (pyLower filename) ".csv" = true
       ∨ pyEndsWith (pyLower filename) ".tsv" = true) :
    extracted_text_of filename raw = some (pyDecodeIgnore raw) ∧
    extracted_text_of "report.csv" [97, 44, 98, 10, 99, 44, 100] = some "a,b\nc,d" := by
  constructor
  · have hb : (pyEndsWith (pyLower filename) ".csv"
        || pyEndsWith (pyLower filename) ".tsv") = true := by
      rcases h with h | h <;> simp [h]
    simp [extracted_text_of, hb]
  · decide

/-- C5 witness: the amended statement at `report.csv` with one ASCII byte. -/
theorem C5_witness :
    extracted_text_of "report.csv" [97] = some (pyDecodeIgnore [97]) ∧
    extracted_text_of "report.csv" [97, 44, 98, 10, 99, 44, 100] = some "a,b\nc,d" :=
  C5_lossy_decode "report.csv" [97] (Or.inl (by decide))

/-- C6: the stored tags come from splitting on commas, trimming each piece
and dropping the pieces that trim to nothing, in input order with no
de-duplication; an absent (or empty) tags string yields []; and the spec's
concrete instance " a, b ,,c " yields exactly ["a", "b", "c"]. -/
theorem C6_parse_tags (s : String) (h : s ≠ "") :
    parse_tags (some s) = ((pySplitComma s).map pyStrip).filter (fun t => t != "") ∧
    parse_tags none = [] ∧
    parse_tags (some "") = [] ∧
    parse_tags (some " a, b ,,c ") = ["a", "b", "c"] := by
  refine ⟨?_, by decide, by decide, by decide⟩
  rw [parse_tags]
  simp only [h, if_false]
  rw [List.filter_map]
  rfl

/-- C6 witness: the statement at the spec's concrete tags string. -/
theorem C6_witness :
    parse_tags (some " a, b ,,c ")
      = ((pySplitComma " a, b ,,c ").map pyStrip).filter (fun t => t != "") ∧
    parse_tags none = [] ∧
    parse_tags (some "") = [] ∧
    parse_tags (some " a, b ,,c ") = ["a", "b", "c"] :=
  C6_parse_tags " a, b ,,c " (by decide)

/-- C7 fails as stated: an empty .csv upload stores `extracted_text = ""` —
present, the empty string, not null — yet the response's preview is null,
because line 147 tests Python truthiness (`if extracted_text`) and `""` is
falsy; the claim requires the preview to be the first 1000 characters of the
present extracted text, i.e. `""`. -/
theorem C7_counterexample :
    (upload_document (some (fun _ => [])) (some "e.csv") none [] none none
        (some "general") none "id1").toOption.map (fun r => r.1.preview)
      = some none ∧
    (upload_document (some (fun _ => [])) (some "e.csv") none [] none none
        (some "general") none "id1").toOption.map
        (fun r => (r.2 "document").map (fun d => d.lookup "extracted_text"))
      = some [some (Val.str "")] ∧
    Val.str "" ≠ Val.null := by
  refine ⟨rfl, rfl, by simp⟩

/-- C7 (amended): every upload succeeds with the newly assigned identifier,
and its preview is the first 1000 characters of the extracted text whenever
that text is present AND non-empty; when the extracted text is absent or the
empty string, the preview is null. -/
theorem C7_preview (s : Store) (f ct ti tg rt ri : Option String)
    (raw : List Nat) (fresh : String) :
    ∃ resp store',
      upload_document (some s) f ct raw ti tg rt ri fresh = .ok (resp, store') ∧
      resp.id = fresh ∧ resp.message = "Uploaded" ∧
      resp.preview = (match extracted_text_of (pyOrStr f "uploaded") raw with
        | none => none
        | some t => if t = "" then none else some (t.take 1000)) :=
  ⟨_, _, rfl, rfl, rfl, rfl⟩

/-- C8: the `/schema` output has exactly the seven known type names,
lowercased, as its keys, in the source's order, each mapped to the Schema
Registry's structural schema of that type; nothing else appears. -/
theorem C8_schema_keys :
    get_schema =
      [("tenant", schemas.Tenant), ("owner", schemas.Owner),
       ("property", schemas.Property), ("lease", schemas.Lease),
       ("sale", schemas.Sale), ("expense", schemas.Expense),
       ("document", schemas.Document)] ∧
    get_schema.map Prod.fst =
      ["tenant", "owner", "property", "lease", "sale", "expense", "document"] := by
  refine ⟨by decide, by decide⟩

/-- C9: the diagnostics endpoint is a total function of the store state — no
store state produces an HTTP error (its model returns a plain payload, never
an `Except.error`): a listing failure is rendered descriptively inside the
payload (truncated to 80 characters) with no collections; the environment
variables are reported only as set/not-set markers; and the collections
reported are at most the store's first 20 names. -/
theorem C9_test_never_fails (db : Option DBHandle) (u n : Bool) :
    (test_database db u n).collections.length ≤ 20 ∧
    (∀ d cols, db = some d → d.list_collection_names = .ok cols →
      (test_database db u n).collections = cols.take 20 ∧
      (test_database db u n).database = "✅ Connected & Working") ∧
    (∀ d e, db = some d → d.list_collection_names = .error e →
      (test_database db u n).collections = [] ∧
      (test_database db u n).database = "⚠️ Connected but Error: " ++ e.take 80) ∧
    (∀ d, db = some d →
      (test_database db u n).database_url = some (if u then "✅ Set" else "❌ Not Set") ∧
      (test_database db u n).database_name = some (if n then "✅ Set" else "❌ Not Set")) ∧
    (db = none → (test_database db u n).database_url = none ∧
      (test_database db u n).database_name = none ∧
      (test_database db u n).collections = []) := by
  rcases db with _ | d
  · refine ⟨by simp [test_database], ?_, ?_, ?_, ?_⟩ <;> intros <;> simp_all [test_database]
  · rcases hd : d.list_collection_names with e | cols
    · refine ⟨by simp [test_database, hd], ?_, ?_, ?_, ?_⟩ <;>
        intros <;> simp_all [test_database]
    · refine ⟨?_, ?_, ?_, ?_, ?_⟩
      · simp [test_database, hd]
      all_goals intros
      all_goals simp_all [test_database]

/-- C9 witness: the statement at a concrete connected store whose listing
succeeds with one collection name. -/
theorem C9_witness :
    (test_database (some ⟨.ok ["tenant"]⟩) true false).collections.length ≤ 20 ∧
    (∀ d cols, (some ⟨.ok ["tenant"]⟩ : Option DBHandle) = some d →
      d.list_collection_names = .ok cols →
      (test_database (some ⟨.ok ["tenant"]⟩) true false).collections = cols.take 20 ∧
      (test_database (some ⟨.ok ["tenant"]⟩) true false).database = "✅ Connected & Working") ∧
    (∀ d e, (some ⟨.ok ["tenant"]⟩ : Option DBHandle) = some d →
      d.list_collection_names = .error e →
      (test_database (some ⟨.ok ["tenant"]⟩) true false).collections = [] ∧
      (test_database (some ⟨.ok ["tenant"]⟩) true false).database
        = "⚠️ Connected but Error: " ++ e.take 80) ∧
    (∀ d, (some ⟨.ok ["tenant"]⟩ : Option DBHandle) = some d →
      (test_database (some ⟨.ok ["tenant"]⟩) true false).database_url
        = some (if true then "✅ Set" else "❌ Not Set") ∧
      (test_database (some ⟨.ok ["tenant"]⟩) true false).database_name
        = some (if false then "✅ Set" else "❌ Not Set")) ∧
    ((some ⟨.ok ["tenant"]⟩ : Option DBHandle) = none →
      (test_database (some ⟨.ok ["tenant"]⟩) true false).database_url = none ∧
      (test_database (some ⟨.ok ["tenant"]⟩) true false).database_name = none ∧
      (test_database (some ⟨.ok ["tenant"]⟩) true false).collections = []) :=
  C9_test_never_fails (some ⟨.ok ["tenant"]⟩) true false

/-- C10: every upload stores, as the new document record, the built Document
whose title is the caller's title when provided and non-empty, else the
uploaded filename when provided and non-empty, else the literal "uploaded" —
so the stored title is never empty (and, being a string field, never null). -/
theorem C10_stored_title (s : Store) (f ct ti tg rt ri : Option String)
    (raw : List Nat) (fresh : String) :
    ∃ resp store',
      upload_document (some s) f ct raw ti tg rt ri fresh = .ok (resp, store') ∧
      store' "document" = s "document" ++
        [("_id", Val.oid fresh) ::
          upload_doc (pyOrStr f "uploaded") (pyOrStr ct "application/octet-stream")
            ti tg rt ri (extracted_text_of (pyOrStr f "uploaded") raw)] ∧
      (upload_doc (pyOrStr f "uploaded") (pyOrStr ct "application/octet-stream")
          ti tg rt ri (extracted_text_of (pyOrStr f "uploaded") raw)).lookup "title"
        = some (Val.str (pyOrStr ti (pyOrStr f "uploaded"))) ∧
      pyOrStr ti (pyOrStr f "uploaded") =
        (match ti with
         | some t0 =>
           if t0 = "" then
             (match f with
              | some f0 => if f0 = "" then "uploaded" else f0
              | none => "uploaded")
           else t0
         | none =>
           match f with
           | some f0 => if f0 = "" then "uploaded" else f0
           | none => "uploaded") ∧
      pyOrStr ti (pyOrStr f "uploaded") ≠ "" := by
  refine ⟨_, _, rfl, ?_, rfl, ?_, ?_⟩
  · simp [create_document]
  · rcases ti with _ | t0 <;> rcases f with _ | f0 <;> simp [pyOrStr]
  · rcases ti with _ | t0 <;> rcases f with _ | f0 <;> simp [pyOrStr] <;>
      split_ifs <;> simp_all
